import Mathlib

/-!
Shallow embedding of the analytical engine of the Social-Media-Analysis
dashboard (`services/dataProcessor.ts` and the report-section splitting in
the main component), together with proofs about the claims of its
specification.

Modelling conventions:
* A JavaScript number is `Option ℚ`; `none` models a non-finite value
  (`NaN`; the spec itself only distinguishes finite from "non-finite"
  results, so `Infinity` arising from division by zero is also mapped
  to `none`).
* A loosely-typed JavaScript value (a raw CSV cell) is `JSVal`:
  `undefined`, a string, or a number.
* `Date` objects are modelled as an optional epoch-millisecond value
  (`none` = Invalid Date).  The model is timezone-free (UTC): string
  parsing accepts ISO 8601 date / date-time strings, every other input
  is treated as invalid, and `getHours`/`getDay` are computed from the
  UTC timestamp.
* `Math.random() * 20 - 10` is modelled by an explicit jitter function
  `ℕ → ℚ` supplied as a parameter; the claims quantify over its range.
* `new Date().toISOString()` (the "now" default of the normalizer) is
  an explicit string parameter.
-/

/-- A JavaScript number: `none` models a non-finite value (NaN). -/
abbrev JQ := Option ℚ

/-- A loosely-typed JavaScript scalar as produced by CSV parsing. -/
inductive JSVal where
  | undef : JSVal
  | str (s : String) : JSVal
  | num (q : JQ) : JSVal
deriving DecidableEq

/-- JavaScript truthiness: `undefined`, `""`, `0` and `NaN` are falsy. -/
def JSVal.truthy : JSVal → Bool
  | .undef => false
  | .str s => s ≠ ""
  | .num none => false
  | .num (some q) => q ≠ 0

/-- JavaScript `a || b`: the left operand if truthy, otherwise the right. -/
def jsOr (a b : JSVal) : JSVal := if a.truthy then a else b

/-- Value of a decimal digit character. -/
def digitVal (c : Char) : Option ℕ :=
  if '0' ≤ c ∧ c ≤ '9' then some (c.toNat - '0'.toNat) else none

/-- Read exactly `n` decimal digits, accumulating their value. -/
def readNDigits : ℕ → ℕ → List Char → Option (ℕ × List Char)
  | 0, acc, cs => some (acc, cs)
  | _ + 1, _, [] => none
  | n + 1, acc, c :: cs =>
    match digitVal c with
    | some d => readNDigits n (acc * 10 + d) cs
    | none => none

/-- Read all leading decimal digits (possibly none). -/
def readDigits : List Char → ℕ → ℕ → (ℕ × ℕ × List Char)
  | [], acc, cnt => (acc, cnt, [])
  | c :: cs, acc, cnt =>
    match digitVal c with
    | some d => readDigits cs (acc * 10 + d) (cnt + 1)
    | none => (acc, cnt, c :: cs)

/-- `Number(string)` on a decimal literal, after trimming: optional sign,
digits, optional fraction.  The empty string coerces to `0`; anything the
model cannot parse (including engine-specific forms such as hexadecimal
or exponent notation, which never occur in this repository's data paths)
is a non-finite result. -/
def parseDecimal (cs : List Char) : JQ :=
  match cs with
  | [] => some 0
  | _ =>
    let (sign, cs₁) : ℚ × List Char :=
      match cs with
      | '-' :: r => (-1, r)
      | '+' :: r => (1, r)
      | r => (1, r)
    let (ip, ipCnt, cs₂) := readDigits cs₁ 0 0
    match cs₂ with
    | [] => if ipCnt = 0 then none else some (sign * ip)
    | '.' :: cs₃ =>
      let (fp, fpCnt, cs₄) := readDigits cs₃ 0 0
      if cs₄ = [] ∧ ipCnt + fpCnt ≠ 0 then
        some (sign * (ip + (fp : ℚ) / (10 : ℚ) ^ fpCnt))
      else none
    | _ => none

/-- JavaScript whitespace test (ASCII subset). -/
def isJsSpace (c : Char) : Bool := c = ' ' ∨ c = '\t' ∨ c = '\n' ∨ c = '\r'

/-- `String.prototype.trim`. -/
def jsTrim (s : String) : String :=
  String.mk (((s.data.dropWhile isJsSpace).reverse.dropWhile isJsSpace).reverse)

/-- `Number(v)` for a loosely-typed value: `undefined` is NaN, numbers pass
through, strings are trimmed and parsed as decimal literals. -/
def jsToNumber : JSVal → JQ
  | .undef => none
  | .num q => q
  | .str s => parseDecimal (jsTrim s).data

/-- `Math.round`: round half toward positive infinity; NaN propagates. -/
def jqRound (x : JQ) : Option ℤ := x.map (fun q => ⌊q + 1 / 2⌋)

/-- NaN-propagating addition. -/
def jqAdd (a b : JQ) : JQ :=
  match a, b with
  | some x, some y => some (x + y)
  | _, _ => none

/-- NaN-propagating subtraction. -/
def jqSub (a b : JQ) : JQ :=
  match a, b with
  | some x, some y => some (x - y)
  | _, _ => none

/-- Division of JS numbers; a zero divisor yields a non-finite result. -/
def jqDiv (a b : JQ) : JQ :=
  match a, b with
  | some x, some y => if y = 0 then none else some (x / y)
  | _, _ => none

/-- Multiplication by a finite constant, NaN-propagating. -/
def jqMulC (a : JQ) (c : ℚ) : JQ := a.map (· * c)

/-- `reduce((a, b) => a + b, 0)` over a list of JS numbers. -/
def jqSum (l : List JQ) : JQ := l.foldl jqAdd (some 0)

/-- Rendering of a JS number inside a template literal.  Integers render
exactly as in JavaScript; for a non-integral rational the model falls back
to a `num/den` rendering (the engine would print a decimal expansion; no
value inspected by the specification is non-integral). -/
def jqToString (x : JQ) : String :=
  match x with
  | none => "NaN"
  | some q => if q.den = 1 then toString q.num else toString q.num ++ "/" ++ toString q.den

/-- Rendering of a rounded JS number (`Math.round` result). -/
def jzToString (x : Option ℤ) : String :=
  match x with
  | none => "NaN"
  | some n => toString n

/-- Milliseconds per day. -/
def msPerDay : ℤ := 86400000

/-- Days from 1970-01-01 of a civil date (proleptic Gregorian). -/
def daysFromCivil (y : ℤ) (m d : ℕ) : ℤ :=
  let y' : ℤ := if m ≤ 2 then y - 1 else y
  let era : ℤ := (if 0 ≤ y' then y' else y' - 399).ediv 400
  let yoe : ℤ := y' - era * 400
  let mp : ℕ := (m + 9) % 12
  let doy : ℕ := (153 * mp + 2) / 5 + d - 1
  let doe : ℤ := yoe * 365 + yoe.ediv 4 - yoe.ediv 100 + doy
  era * 146097 + doe - 719468

/-- Civil date (year, month, day) of a days-from-epoch count. -/
def civilFromDays (z₀ : ℤ) : ℤ × ℕ × ℕ :=
  let z : ℤ := z₀ + 719468
  let era : ℤ := (if 0 ≤ z then z else z - 146096).ediv 146097
  let doe : ℤ := z - era * 146097
  let yoe : ℤ := (doe - doe.ediv 1460 + doe.ediv 36524 - doe.ediv 146096).ediv 365
  let y : ℤ := yoe + era * 400
  let doy : ℤ := doe - (365 * yoe + yoe.ediv 4 - yoe.ediv 100)
  let mp : ℤ := (5 * doy + 2).ediv 153
  let d : ℤ := doy - (153 * mp + 2).ediv 5 + 1
  let m : ℤ := mp + (if mp < 10 then 3 else -9)
  (if m ≤ 2 then y + 1 else y, m.toNat, d.toNat)

/-- Number of days in a month of the proleptic Gregorian calendar. -/
def daysInMonth (y : ℤ) (m : ℕ) : ℕ :=
  if m = 2 then
    if y % 4 = 0 ∧ (y % 100 ≠ 0 ∨ y % 400 = 0) then 29 else 28
  else if m = 4 ∨ m = 6 ∨ m = 9 ∨ m = 11 then 30
  else 31

/-- End of an ISO time string: nothing, or a final `Z`. -/
def isoEnd (cs : List Char) : Bool := cs = [] ∨ cs = ['Z']

/-- Parse the optional time part of an ISO 8601 string (after the date):
empty, or `THH:MM`, `THH:MM:SS`, `THH:MM:SS.sss`, each optionally followed
by `Z`.  Returns `(hours, minutes, seconds, milliseconds)`. -/
def parseTimePart : List Char → Option (ℕ × ℕ × ℕ × ℕ)
  | [] => some (0, 0, 0, 0)
  | 'T' :: cs => do
    let (h, r₁) ← readNDigits 2 0 cs
    match r₁ with
    | ':' :: r₂ => do
      let (mi, r₃) ← readNDigits 2 0 r₂
      if isoEnd r₃ then some (h, mi, 0, 0) else
      match r₃ with
      | ':' :: r₄ => do
        let (se, r₅) ← readNDigits 2 0 r₄
        if isoEnd r₅ then some (h, mi, se, 0) else
        match r₅ with
        | '.' :: r₆ => do
          let (ms, r₇) ← readNDigits 3 0 r₆
          if isoEnd r₇ then some (h, mi, se, ms) else none
        | _ => none
      | _ => none
    | _ => none
  | _ => none

/-- Epoch milliseconds of an ISO 8601 `YYYY-MM-DD[THH:MM[:SS[.sss]][Z]]`
string; `none` for any other string (the model of `Date.parse` for the
formats this repository produces). -/
def parseISOms (s : String) : Option ℤ := do
  let (y, r₁) ← readNDigits 4 0 s.data
  match r₁ with
  | '-' :: r₂ => do
    let (mo, r₃) ← readNDigits 2 0 r₂
    match r₃ with
    | '-' :: r₄ => do
      let (d, r₅) ← readNDigits 2 0 r₄
      let (h, mi, se, ms) ← parseTimePart r₅
      if 1 ≤ mo ∧ mo ≤ 12 ∧ 1 ≤ d ∧ d ≤ daysInMonth y mo ∧
          h ≤ 23 ∧ mi ≤ 59 ∧ se ≤ 59 then
        some (daysFromCivil y mo d * msPerDay +
          ((h * 3600000 + mi * 60000 + se * 1000 + ms : ℕ) : ℤ))
      else none
    | _ => none
  | _ => none

/-- A JavaScript `Date`: `none` models an Invalid Date. -/
structure JSDate where
  ms : Option ℤ
deriving DecidableEq

/-- `new Date(string)`. -/
def jsDateOfString (s : String) : JSDate := ⟨parseISOms s⟩

/-- `new Date(v)` for a loosely-typed value: strings are parsed, a finite
number is an epoch-millisecond timestamp (fractional part truncated as by
the engine's internal clipping), everything else is invalid. -/
def jsDateOfVal : JSVal → JSDate
  | .str s => jsDateOfString s
  | .num (some q) => ⟨some ⌊q⌋⟩
  | _ => ⟨none⟩

/-- `Date.prototype.getHours` (UTC model): `none` for an invalid date. -/
def jsGetHours (d : JSDate) : Option ℤ :=
  d.ms.map (fun t => (t.emod msPerDay).ediv 3600000)

/-- `Date.prototype.getDay` (UTC model): 0 = Sunday … 6 = Saturday. -/
def jsGetDay (d : JSDate) : Option ℤ :=
  d.ms.map (fun t => ((t.emod (7 * msPerDay)).ediv msPerDay + 4).emod 7)

/-- Left-pad a string to two characters with `'0'`
(`String.prototype.padStart(2, '0')`). -/
def jsPadStart2 (s : String) : String :=
  if s.length < 2 then String.mk (List.replicate (2 - s.length) '0' ++ s.data) else s

/-- `s.split('T')[0]`: the prefix before the first `'T'`. -/
def jsSplitT (s : String) : String := String.mk (s.data.takeWhile (· ≠ 'T'))

/-- Split a string at every occurrence of a separator character
(`String.prototype.split` with a one-character separator). -/
def jsSplitChar (sep : Char) (s : String) : List String :=
  go s.data [] |>.map String.mk
where
  /-- Accumulating splitter over the character list. -/
  go : List Char → List Char → List (List Char)
    | [], acc => [acc.reverse]
    | c :: cs, acc => if c = sep then acc.reverse :: go cs [] else go cs (c :: acc)

/-- Zero-pad the decimal rendering of a natural number to `n` digits. -/
def padNat (n : ℕ) (v : ℕ) : String :=
  let s := toString v
  if s.length < n then String.mk (List.replicate (n - s.length) '0' ++ s.data) else s

/-- The date portion of `Date.prototype.toISOString` for an epoch-ms
timestamp (`toISOString().split('T')[0]`). -/
def isoDatePart (t : ℤ) : String :=
  let (y, m, d) := civilFromDays (t.ediv msPerDay)
  padNat 4 y.toNat ++ "-" ++ padNat 2 m ++ "-" ++ padNat 2 d

/-!
## Stable sorting

`Array.prototype.sort` is specified to be stable; every comparator in this
repository has the shape `(a, b) => keyB - keyA` or `keyA - keyB`, and the
sort is modelled by a stable insertion sort over the boolean relation
"the comparator does not require a swap" (`le a b` = comparator result for
`(a, b)` is not positive; a non-finite comparator result causes no swap).
-/

/-- Insert an element after every element already ordered no later than it
(stable insertion step). -/
def insertStable (le : α → α → Bool) (x : α) : List α → List α
  | [] => [x]
  | y :: ys => if le y x then y :: insertStable le x ys else x :: y :: ys

/-- Stable sort of a list with respect to a boolean "no swap" relation. -/
def jsSortBy (le : α → α → Bool) (l : List α) : List α :=
  l.foldl (fun acc x => insertStable le x acc) []

/-!
## Data model (`types.ts`)
-/

/-- `SocialData` (`types.ts`): one canonical engagement record. -/
structure SocialData where
  Date : String
  Engagement : JQ
  Impressions : JQ
  Shares : JQ
  Likes : JQ
  Comments : JQ
  Sector : String
  Platform : String
  Hour : JQ
deriving DecidableEq

/-- `NTSResults` (`types.ts`).  The two numeric fields hold `Math.round`
results, hence integers (`none` = non-finite). -/
structure NTSResults where
  bestDay : String
  bestHour : String
  engagementScore : Option ℤ
  liftPercentage : Option ℤ
  secondaryWindow : String
deriving DecidableEq

/-- `ForecastPoint` (`types.ts`): `actual` and `predicted` are optional
number fields (`none` = the property is absent). -/
structure ForecastPoint where
  date : String
  actual : Option JQ := none
  predicted : Option JQ := none
deriving DecidableEq

/-- Placeholder record used to model JS array indexing that is guarded by
length checks in the source (never reached under those guards). -/
def dfltSD : SocialData := ⟨"", none, none, none, none, none, "", "", none⟩

/-- Placeholder forecast point (same role as `dfltSD`). -/
def dfltFP : ForecastPoint := ⟨"", none, none⟩

/-!
## Normalizer: `processCSVData` (`dataProcessor.ts`, lines 4–16)
-/

/-- A raw CSV row: the loosely-typed fields `processCSVData` reads.
A key that is missing from the row is `JSVal.undef`. -/
structure RawRow where
  Date : JSVal := .undef
  date : JSVal := .undef
  Engagement : JSVal := .undef
  engagement : JSVal := .undef
  Impressions : JSVal := .undef
  impressions : JSVal := .undef
  Shares : JSVal := .undef
  shares : JSVal := .undef
  Likes : JSVal := .undef
  likes : JSVal := .undef
  Comments : JSVal := .undef
  comments : JSVal := .undef
  Sector : JSVal := .undef
  sector : JSVal := .undef
  Platform : JSVal := .undef
  platform : JSVal := .undef
  Hour : JSVal := .undef
deriving DecidableEq

/-- The record shape `processCSVData` actually produces at runtime: the
`||` chains pass the winning raw value through without coercion, so the
`Date`/`Sector`/`Platform` fields hold whatever loosely-typed value won
(TypeScript declares them `string`, but no conversion is inserted). -/
structure PRecord where
  Date : JSVal
  Engagement : JQ
  Impressions : JQ
  Shares : JQ
  Likes : JQ
  Comments : JQ
  Sector : JSVal
  Platform : JSVal
  Hour : JQ
deriving DecidableEq

/-- `getHours() || 0`: a non-finite hour (invalid date) becomes `0`. -/
def hourOrZero (h : Option ℤ) : ℤ :=
  match h with
  | some n => if n = 0 then 0 else n
  | none => 0

/-- One row of `processCSVData` (`dataProcessor.ts`, lines 5–15).
`nowISO` models `new Date().toISOString()`. -/
def processRow (nowISO : String) (row : RawRow) : PRecord :=
  { Date := jsOr row.Date (jsOr row.date (.str nowISO)),
    Engagement := jsToNumber (jsOr row.Engagement (jsOr row.engagement (.num (some 0)))),
    Impressions := jsToNumber (jsOr row.Impressions (jsOr row.impressions (.num (some 0)))),
    Shares := jsToNumber (jsOr row.Shares (jsOr row.shares (.num (some 0)))),
    Likes := jsToNumber (jsOr row.Likes (jsOr row.likes (.num (some 0)))),
    Comments := jsToNumber (jsOr row.Comments (jsOr row.comments (.num (some 0)))),
    Sector := jsOr row.Sector (jsOr row.sector (.str "General")),
    Platform := jsOr row.Platform (jsOr row.platform (.str "Unknown")),
    Hour := if row.Hour.truthy then jsToNumber row.Hour
            else some ((hourOrZero (jsGetHours (jsDateOfVal row.Date)) : ℤ) : ℚ) }

/-- `processCSVData` (`dataProcessor.ts`, lines 4–16). -/
def processCSVData (nowISO : String) (rawData : List RawRow) : List PRecord :=
  rawData.map (processRow nowISO)

/-!
## Sync Analyzer: `calculateNTS` (`dataProcessor.ts`, lines 18–60)
-/

/-- `weekDays` (`dataProcessor.ts`, line 21). -/
def weekDays : List String :=
  ["Sunday", "Monday", "Tuesday", "Wednesday", "Thursday", "Friday", "Saturday"]

/-- `weekDays[d.getDay()]` interpolated into the key: an invalid date
indexes with NaN, yielding `undefined`, which prints as `"undefined"`. -/
def weekDayName (d : JSDate) : String :=
  match jsGetDay d with
  | some n => weekDays.getD n.toNat "undefined"
  | none => "undefined"

/-- `intersectionMap[key].push(v)` with on-demand list creation, on a
string-keyed object in insertion order (lines 31–32). -/
def upsertPush (m : List (String × List JQ)) (k : String) (v : JQ) :
    List (String × List JQ) :=
  match m with
  | [] => [(k, [v])]
  | (k', vs) :: rest =>
    if k' = k then (k', vs ++ [v]) :: rest else (k', vs) :: upsertPush rest k v

/-- The grouping key `` `${day}|${hr}` `` of a record (lines 26–29). -/
def ntsKey (item : SocialData) : String :=
  weekDayName (jsDateOfString item.Date) ++ "|" ++ jqToString item.Hour

/-- "No swap" relation of the ranking comparator
`(a, b) => b.avg - a.avg` (line 43): descending by average, keys with a
non-finite average cause no swap. -/
def rankLe (a b : String × JQ) : Bool :=
  match a.2, b.2 with
  | some x, some y => decide (y ≤ x)
  | _, _ => true

/-- `calculateNTS` (`dataProcessor.ts`, lines 18–60). -/
def calculateNTS (data : List SocialData) : NTSResults :=
  if data.isEmpty then
    { bestDay := "N/A", bestHour := "N/A", engagementScore := some 0,
      liftPercentage := some 0, secondaryWindow := "N/A" }
  else
    let acc := data.foldl
      (fun (acc : List (String × List JQ) × List JQ) item =>
        (upsertPush acc.1 (ntsKey item) item.Engagement,
         acc.2 ++ [item.Engagement]))
      ([], [])
    let intersectionMap := acc.1
    let globalEngagements := acc.2
    let baselineAverage :=
      jqDiv (jqSum globalEngagements) (some (globalEngagements.length : ℚ))
    let rankings := jsSortBy rankLe
      (intersectionMap.map (fun kv => (kv.1, jqDiv (jqSum kv.2) (some (kv.2.length : ℚ)))))
    let best := rankings.headD ("", none)
    let secondary := rankings.getD 1 best
    let bestParts := jsSplitChar '|' best.1
    let secParts := jsSplitChar '|' secondary.1
    let bestDay := bestParts.getD 0 ""
    let bestHourRaw := bestParts.getD 1 ""
    let secDay := secParts.getD 0 ""
    let secHourRaw := secParts.getD 1 ""
    let lift := jqMulC (jqDiv (jqSub best.2 baselineAverage) baselineAverage) 100
    { bestDay := bestDay,
      bestHour := jsPadStart2 bestHourRaw ++ ":00",
      engagementScore := jqRound best.2,
      liftPercentage := jqRound lift,
      secondaryWindow := secDay ++ " @ " ++ jsPadStart2 secHourRaw ++ ":00" }

/-!
## Forecaster: `generateNeuralForecast` (`dataProcessor.ts`, lines 62–87)
-/

/-- "No swap" relation of the chronological comparator
`(a, b) => new Date(a.Date).getTime() - new Date(b.Date).getTime()`
(line 65); an invalid date gives a non-finite difference and no swap. -/
def dateLe (a b : SocialData) : Bool :=
  match (jsDateOfString a.Date).ms, (jsDateOfString b.Date).ms with
  | some x, some y => decide (x ≤ y)
  | _, _ => true

/-- `[...data].sort(...)` (line 65): a stable sort of a copy of the input. -/
def forecastSorted (data : List SocialData) : List SocialData :=
  jsSortBy dateLe data

/-- The historical points (lines 69–72): one echo per sorted record. -/
def forecastHistoric (data : List SocialData) : List ForecastPoint :=
  (forecastSorted data).map
    (fun d => { date := jsSplitT d.Date, actual := some d.Engagement })

/-- `x || d` for an optional-number property read: the property's value if
present, finite and non-zero, otherwise the default. -/
def jqOrQ (a : Option JQ) (d : ℚ) : ℚ :=
  match a with
  | some (some q) => if q = 0 then d else q
  | _ => d

/-- `let lastVal = points[points.length - 1].actual || 100` (line 74). -/
def forecastLastVal (data : List SocialData) : ℚ :=
  jqOrQ ((forecastHistoric data).getLastD dfltFP).actual 100

/-- `const trend = (lastVal - (points[0].actual || 0)) / points.length`
(line 75). -/
def forecastTrend (data : List SocialData) : ℚ :=
  (forecastLastVal data - jqOrQ ((forecastHistoric data).headD dfltFP).actual 0) /
    ((forecastHistoric data).length : ℚ)

/-- The date string of the `i`-th future point:
`nextDate.setDate(lastDate.getDate() + i); nextDate.toISOString().split('T')[0]`
(lines 78–81).  `toISOString` throws a `RangeError` on an invalid date,
modelled by `none`. -/
def forecastFutureDate (lastDate : JSDate) (i : ℕ) : Option String :=
  lastDate.ms.map (fun t => isoDatePart (t + i * msPerDay))

/-- `generateNeuralForecast` (`dataProcessor.ts`, lines 62–87).
`jitter i` models the value of `Math.random() * 20 - 10` drawn for loop
index `i`; the whole result is `none` when the source would throw
(`toISOString` on an invalid last date). -/
def generateNeuralForecast (jitter : ℕ → ℚ) (data : List SocialData) :
    Option (List ForecastPoint) :=
  if data.length < 2 then some []
  else
    let sorted := forecastSorted data
    let lastDate := jsDateOfString ((sorted.getLastD dfltSD).Date)
    let points := forecastHistoric data
    let lastVal := forecastLastVal data
    let trend := forecastTrend data
    ((List.range 10).mapM (fun k =>
        let i := k + 1
        (forecastFutureDate lastDate i).map (fun ds =>
          { date := ds,
            predicted := some (some (max 0 (lastVal + trend * i + jitter i))) :
            ForecastPoint }))).map
      (fun future => points ++ future)

/-!
## Summarizer: `generateRichSummary` (`dataProcessor.ts`, lines 89–120)
-/

/-- `acc[k] = (acc[k] || 0) + v` on a string-keyed object in insertion
order (lines 96–104); note `NaN || 0` is `0`. -/
def statUpsert (m : List (String × JQ)) (k : String) (v : JQ) :
    List (String × JQ) :=
  match m with
  | [] => [(k, jqAdd (some 0) v)]
  | (k', x) :: rest =>
    if k' = k then (k', jqAdd (jqOrJQ x) v) :: rest
    else (k', x) :: statUpsert rest k v
where
  /-- `x || 0` for a present numeric property: `0` and `NaN` become `0`. -/
  jqOrJQ : JQ → JQ
    | some q => if q = 0 then some 0 else some q
    | none => some 0

/-- "No swap" relation of `(a, b) => b[1] - a[1]` (lines 106–107). -/
def statLe (a b : String × JQ) : Bool :=
  match a.2, b.2 with
  | some x, some y => decide (y ≤ x)
  | _, _ => true

/-- Digit grouping of `Number.prototype.toLocaleString` (en-US): commas
every three digits from the right. -/
def groupDigits (s : String) : String :=
  String.mk ((go s.data.reverse).reverse)
where
  /-- Insert a comma after every third character of the reversed digits. -/
  go : List Char → List Char
    | c₁ :: c₂ :: c₃ :: c₄ :: rest => c₁ :: c₂ :: c₃ :: ',' :: go (c₄ :: rest)
    | l => l

/-- `Number.prototype.toLocaleString()` (en-US default: grouping, at most
three fraction digits, rounded).  `NaN` prints as `"NaN"`. -/
def jsToLocaleString (x : JQ) : String :=
  match x with
  | none => "NaN"
  | some q =>
    let sgn := if q < 0 then "-" else ""
    let scaled : ℤ := ⌊|q| * 1000 + 1 / 2⌋
    let ip := scaled.toNat / 1000
    let fp := scaled.toNat % 1000
    let fpStr := String.mk ((padNat 3 fp).data.reverse.dropWhile (· = '0')).reverse
    sgn ++ groupDigits (toString ip) ++ (if fpStr = "" then "" else "." ++ fpStr)

/-- `Number.prototype.toFixed(1)`.  `NaN` prints as `"NaN"`. -/
def jsToFixed1 (x : JQ) : String :=
  match x with
  | none => "NaN"
  | some q =>
    let sgn := if q < 0 then "-" else ""
    let scaled : ℤ := ⌊|q| * 10 + 1 / 2⌋
    sgn ++ toString (scaled.toNat / 10) ++ "." ++ toString (scaled.toNat % 10)

/-- `generateRichSummary` (`dataProcessor.ts`, lines 89–120). -/
def generateRichSummary (data : List SocialData) (nts : NTSResults) : String :=
  if data.isEmpty then "Fleet data unavailable."
  else
    let totalEng := jqSum (data.map (·.Engagement))
    let avgEng := jqDiv totalEng (some (data.length : ℚ))
    let totalImp := jqSum (data.map (·.Impressions))
    let platformStats := data.foldl
      (fun acc curr => statUpsert acc curr.Platform curr.Engagement) []
    let sectorStats := data.foldl
      (fun acc curr => statUpsert acc curr.Sector curr.Engagement) []
    let topPlatform := (jsSortBy statLe platformStats).head?
    let topSector := (jsSortBy statLe sectorStats).head?
    jsTrim ("\n    Mission Status: Active\n    Total Neural Packets Analyzed: "
      ++ toString data.length
      ++ "\n    Global Fleet Engagement: " ++ jsToLocaleString totalEng
      ++ " (Avg: " ++ jsToFixed1 avgEng ++ ")"
      ++ "\n    Total Neural Reach (Impressions): " ++ jsToLocaleString totalImp
      ++ "\n    Top Sector: "
      ++ (match topSector with | some e => e.1 | none => "None")
      ++ " (" ++ (match topSector with | some e => jqToString e.2 | none => "0")
      ++ " eng)"
      ++ "\n    Dominant Platform: "
      ++ (match topPlatform with | some e => e.1 | none => "None")
      ++ " (" ++ (match topPlatform with | some e => jqToString e.2 | none => "0")
      ++ " eng)"
      ++ "\n    Optimal Sync Window (NTS): " ++ nts.bestDay ++ " at " ++ nts.bestHour
      ++ "\n    NTS Lift Potential: " ++ jzToString nts.liftPercentage
      ++ "% above baseline.\n    Secondary Sync: " ++ nts.secondaryWindow
      ++ "\n  ")

/-!
## Report-section splitting (`startBriefing`, main component lines 255–279)

`reportRawText.match(/\[([A-Z_]+)\]([\s\S]*?)(?=\[[A-Z_]+\]|$)/g)` finds
every bracket marker `[NAME]` (an uppercase/underscore run) together with
the lazily-matched text up to the next marker or the end; each match is
reduced to `(title, trimmed content)` and stored in an insertion-ordered
string-keyed object.  When there is no match at all, the whole raw text is
stored untrimmed under the key `'EXECUTIVE_SUMMARY'`.
-/

/-- Character class `[A-Z_]` of the section-marker regex. -/
def isMarkerChar (c : Char) : Bool := ('A' ≤ c ∧ c ≤ 'Z') ∨ c = '_'

/-- Try to read a marker `[NAME]` at the head of the text; returns the
name and the remaining text. -/
def matchMarker : List Char → Option (List Char × List Char)
  | '[' :: cs =>
    let run := cs.takeWhile isMarkerChar
    let rest := cs.dropWhile isMarkerChar
    match rest with
    | ']' :: rest' => if run = [] then none else some (run, rest')
    | _ => none
  | _ => none

/-- Is a marker present anywhere in the text? (`match` returns a non-null
result exactly when this holds.) -/
def hasMarker : List Char → Bool
  | [] => false
  | c :: cs => (matchMarker (c :: cs)).isSome || hasMarker cs

/-- Lazily take content up to the next marker (the `(?=\[[A-Z_]+\]|$)`
lookahead): returns the content and the rest starting at that marker. -/
def takeContent : List Char → List Char × List Char
  | [] => ([], [])
  | c :: cs =>
    if (matchMarker (c :: cs)).isSome then ([], c :: cs)
    else
      let (ct, r) := takeContent cs
      (c :: ct, r)

/-- Scan the text left to right, collecting `(title, trimmed content)` for
every regex match; text before the first marker is skipped, as the regex
match does.  `fuel` bounds the recursion by the text length. -/
def splitLoop : ℕ → List Char → List (String × String)
  | 0, _ => []
  | _ + 1, [] => []
  | fuel + 1, c :: cs =>
    match matchMarker (c :: cs) with
    | some (name, rest) =>
      let (ct, r) := takeContent rest
      (String.mk name, jsTrim (String.mk ct)) :: splitLoop fuel r
    | none => splitLoop fuel cs

/-- Store a section in the insertion-ordered object (`sections[title] =
content`: a repeated title overwrites in place). -/
def sectionsUpsert (m : List (String × String)) (k v : String) :
    List (String × String) :=
  match m with
  | [] => [(k, v)]
  | (k', v') :: rest =>
    if k' = k then (k, v) :: rest else (k', v') :: sectionsUpsert rest k v

/-- The section-splitting step of `startBriefing` (lines 258–269): the
object built from the regex matches, or the whole raw text under
`'EXECUTIVE_SUMMARY'` when there is no match. -/
def splitReportSections (reportRawText : String) : List (String × String) :=
  let ms := splitLoop (reportRawText.data.length + 1) reportRawText.data
  if ms.isEmpty then [("EXECUTIVE_SUMMARY", reportRawText)]
  else ms.foldl (fun acc kv => sectionsUpsert acc kv.1 kv.2) []

/-!
## Frame effects

JavaScript arrays are passed by reference and mutable only through
in-place operations.  None of the three core functions applies an in-place
operation to its input: the forecaster's `.sort` (the only in-place call in
the file) acts on the spread copy `[...data]` built on line 65.  The
`Run` variants make the state of the input array explicit: they return the
result together with the input array as it is after the call.
-/

/-- `calculateNTS` with the input array state threaded through: the body
only reads `data` (`.length`, `.forEach` with a read-only callback). -/
def calculateNTSRun (data : List SocialData) : NTSResults × List SocialData :=
  (calculateNTS data, data)

/-- `generateNeuralForecast` with the input array state threaded through:
the sort happens on the copy `[...data]`, never on `data`. -/
def generateNeuralForecastRun (jitter : ℕ → ℚ) (data : List SocialData) :
    Option (List ForecastPoint) × List SocialData :=
  (generateNeuralForecast jitter data, data)

/-- `generateRichSummary` with the input array state threaded through: the
body only reads `data` (`.length`, `.reduce` with read-only callbacks). -/
def generateRichSummaryRun (data : List SocialData) (nts : NTSResults) :
    String × List SocialData :=
  (generateRichSummary data nts, data)

/-- The shape of the `k`-th future forecast point (0-based) when the last
sorted record's timestamp is valid with epoch value `t`: date `i = k + 1`
days after it, predicted value `max(0, lastVal + trend * i + jitter i)`
(`dataProcessor.ts`, lines 77–84). -/
def forecastFuturePoint (jitter : ℕ → ℚ) (data : List SocialData) (t : ℤ) (k : ℕ) :
    ForecastPoint :=
  { date := isoDatePart (t + ((k + 1 : ℕ) : ℤ) * msPerDay),
    predicted := some (some (max 0 (forecastLastVal data
      + forecastTrend data * ((k + 1 : ℕ) : ℚ) + jitter (k + 1)))) }

/-!
## Concrete inputs used by the claim theorems
-/

/-- A Monday 09:00 record with engagement 100 (NTS example input). -/
def ntsMonA : SocialData :=
  ⟨"2024-01-01T09:00:00", some 100, some 0, some 0, some 0, some 0,
    "General", "Unknown", some 9⟩

/-- A Monday 09:00 record with engagement 200 (NTS example input). -/
def ntsMonB : SocialData :=
  ⟨"2024-01-01T09:00:00", some 200, some 0, some 0, some 0, some 0,
    "General", "Unknown", some 9⟩

/-- A Tuesday 10:00 record with engagement 50 (NTS example input). -/
def ntsTue : SocialData :=
  ⟨"2024-01-02T10:00:00", some 50, some 0, some 0, some 0, some 0,
    "General", "Unknown", some 10⟩

/-- First (chronologically) trend-counterexample record: engagement 40. -/
def trendRecA : SocialData :=
  ⟨"2024-01-01T00:00:00", some 40, some 0, some 0, some 0, some 0,
    "General", "Unknown", some 0⟩

/-- Second trend-counterexample record: engagement 0 (falsy, so the
source's `|| 100` coercion kicks in). -/
def trendRecB : SocialData :=
  ⟨"2024-01-02T00:00:00", some 0, some 0, some 0, some 0, some 0,
    "General", "Unknown", some 0⟩

/-- Forecast-witness record, engagement 10, 2024-01-01. -/
def fcA : SocialData :=
  ⟨"2024-01-01T00:00:00", some 10, some 0, some 0, some 0, some 0,
    "General", "Unknown", some 0⟩

/-- Forecast-witness record, engagement 20, 2024-01-02. -/
def fcB : SocialData :=
  ⟨"2024-01-02T00:00:00", some 20, some 0, some 0, some 0, some 0,
    "General", "Unknown", some 0⟩

/-- Zero-engagement record, 2024-01-01 (forecast-bound counterexample). -/
def zEngA : SocialData :=
  ⟨"2024-01-01T00:00:00", some 0, some 0, some 0, some 0, some 0,
    "General", "Unknown", some 0⟩

/-- Zero-engagement record, 2024-01-02 (forecast-bound counterexample). -/
def zEngB : SocialData :=
  ⟨"2024-01-02T00:00:00", some 0, some 0, some 0, some 0, some 0,
    "General", "Unknown", some 0⟩

/-- A fixed "now" timestamp for instantiating the normalizer. -/
def epochISO : String := "1970-01-01T00:00:00.000Z"

/-!
## General lemmas about the embedding's building blocks
-/

theorem length_insertStable (le : α → α → Bool) (x : α) (l : List α) :
    (insertStable le x l).length = l.length + 1 := by
  induction l with
  | nil => rfl
  | cons y ys ih =>
    simp only [insertStable]
    split
    · simp [ih]
    · simp [ih]

theorem length_jsSortBy (le : α → α → Bool) (l : List α) :
    (jsSortBy le l).length = l.length := by
  suffices h : ∀ acc : List α,
      (l.foldl (fun acc x => insertStable le x acc) acc).length = acc.length + l.length by
    simpa using h []
  induction l with
  | nil => simp
  | cons x xs ih => intro acc; simp [ih, length_insertStable]; omega

theorem mem_insertStable {le : α → α → Bool} {x y : α} {l : List α} :
    y ∈ insertStable le x l ↔ y = x ∨ y ∈ l := by
  induction l with
  | nil => simp [insertStable]
  | cons z zs ih =>
    simp only [insertStable]
    split
    · simp [ih]; tauto
    · simp

theorem mem_foldl_insertStable (le : α → α → Bool) (l : List α) (x : α) :
    ∀ acc : List α,
      x ∈ l.foldl (fun acc x => insertStable le x acc) acc → x ∈ acc ∨ x ∈ l := by
  induction l with
  | nil => intro acc h'; exact Or.inl h'
  | cons z zs ih =>
    intro acc h'
    rcases ih (insertStable le z acc) h' with h'' | h''
    · rcases mem_insertStable.mp h'' with h3 | h3
      · exact Or.inr (by simp [h3])
      · exact Or.inl h3
    · exact Or.inr (by simp [h''])

theorem mem_jsSortBy {le : α → α → Bool} {l : List α} {x : α}
    (h : x ∈ jsSortBy le l) : x ∈ l := by
  rcases mem_foldl_insertStable le l x [] h with h' | h'
  · cases h'
  · exact h' 

theorem getLastD_irrel (l : List α) (hl : l ≠ []) (d₁ d₂ : α) :
    l.getLastD d₁ = l.getLastD d₂ := by
  cases l with
  | nil => cases hl rfl
  | cons x xs => simp only [List.getLastD_cons]

theorem getLastD_map (f : α → β) (l : List α) (d : α) :
    (l.map f).getLastD (f d) = f (l.getLastD d) := by
  induction l generalizing d with
  | nil => rfl
  | cons x xs ih => simp only [List.map_cons, List.getLastD_cons]; exact ih x

theorem getLastD_mem (l : List α) (hl : l ≠ []) (d : α) : l.getLastD d ∈ l := by
  induction l generalizing d with
  | nil => cases hl rfl
  | cons x xs ih =>
    rw [List.getLastD_cons]
    cases hxs : xs with
    | nil => simp [List.getLastD]
    | cons y ys => exact List.mem_cons_of_mem _ (hxs ▸ ih (by simp [hxs]) x)

theorem headD_map (f : α → β) (l : List α) (hl : l ≠ []) (d : α) (d' : β) :
    (l.map f).headD d' = f (l.headD d) := by
  cases l with
  | nil => cases hl rfl
  | cons x xs => rfl

theorem mapM_option_eq_map (f : α → Option β) (g : α → β) (l : List α)
    (h : ∀ a ∈ l, f a = some (g a)) : l.mapM f = some (l.map g) := by
  induction l with
  | nil => rfl
  | cons x xs ih =>
    rw [List.mapM_cons, h x (by simp), ih (fun a ha => h a (by simp [ha]))]
    rfl

theorem jsGetHours_range (d : JSDate) (h : ℤ) (hh : jsGetHours d = some h) :
    0 ≤ h ∧ h < 24 := by
  unfold jsGetHours at hh
  cases hms : d.ms with
  | none => rw [hms] at hh; cases hh
  | some t =>
    rw [hms] at hh
    simp only [Option.map_some'] at hh
    have hA := Option.some_inj.mp hh
    subst hA
    have hm0 : (0:ℤ) < msPerDay := by norm_num [msPerDay]
    have h1 : 0 ≤ t.emod msPerDay := Int.emod_nonneg t (by norm_num [msPerDay])
    have h2 : t.emod msPerDay < msPerDay := Int.emod_lt_of_pos t hm0
    constructor
    · exact Int.ediv_nonneg h1 (by norm_num)
    · rw [show ((3600000:ℤ)) = 3600000 from rfl]
      have : t.emod msPerDay / 3600000 < 24 :=
        (Int.ediv_lt_iff_lt_mul (by norm_num)).mpr (by norm_num [msPerDay] at h2 ⊢; omega)
      exact this

theorem hourOrZero_range (o : Option ℤ)
    (hr : ∀ h, o = some h → 0 ≤ h ∧ h < 24) :
    0 ≤ hourOrZero o ∧ hourOrZero o < 24 := by
  cases o with
  | none => exact ⟨by decide, by decide⟩
  | some n =>
    simp only [hourOrZero]
    split
    · omega
    · exact hr n rfl

theorem splitLoop_eq_nil (fuel : ℕ) (cs : List Char) (h : hasMarker cs = false) :
    splitLoop fuel cs = [] := by
  induction fuel generalizing cs with
  | zero => rfl
  | succ n ih =>
    cases cs with
    | nil => rfl
    | cons c cs' =>
      rw [hasMarker] at h
      simp only [Bool.or_eq_false_iff] at h
      rw [splitLoop]
      rcases hmm : matchMarker (c :: cs') with _ | v
      · exact ih cs' h.2
      · rw [hmm] at h; simp at h

theorem getD_map_range (n k : ℕ) (hk : k < n) (g : ℕ → β) (d : β) :
    ((List.range n).map g).getD k d = g k := by
  rw [List.getD_eq_getElem?_getD, List.getElem?_map, List.getElem?_range hk]
  rfl

theorem report_sections_general (s : String) (h : hasMarker s.data = false) :
    splitReportSections s = [("EXECUTIVE_SUMMARY", s)] := by
  unfold splitReportSections
  rw [splitLoop_eq_nil _ _ h]
  rfl

/-!
## Claim theorems

The rational-arithmetic primitives of the standard library are marked
irreducible for elaboration; the concrete evaluations below make them
semireducible locally so that `decide` can compute with them.
-/

section ClaimProofs

attribute [local semireducible] Rat.add Rat.mul Rat.inv Rat.sub

/-- C1 (amended): `processCSVData` is total — it never raises and returns
exactly one record per input row — and applies the documented defaults:
each numeric field is `0` when both key variants are missing, `Sector`
defaults to `"General"`, `Platform` to `"Unknown"`, and the hour is an
integer in `[0, 23]` whenever the explicit `Hour` field is falsy.
However, *present* numeric input is passed through `Number()` unclamped,
so a negative value stays negative and an unparseable value becomes NaN
(not `0`); and a truthy `Hour` field is used without range-checking (see
the counterexample). -/
theorem processCSVData_totality_and_defaults (nowISO : String)
    (rows : List RawRow) (row : RawRow) :
    (processCSVData nowISO rows).length = rows.length
    ∧ (row.Engagement = .undef → row.engagement = .undef →
        (processRow nowISO row).Engagement = some 0)
    ∧ (row.Impressions = .undef → row.impressions = .undef →
        (processRow nowISO row).Impressions = some 0)
    ∧ (row.Shares = .undef → row.shares = .undef →
        (processRow nowISO row).Shares = some 0)
    ∧ (row.Likes = .undef → row.likes = .undef →
        (processRow nowISO row).Likes = some 0)
    ∧ (row.Comments = .undef → row.comments = .undef →
        (processRow nowISO row).Comments = some 0)
    ∧ (row.Sector = .undef → row.sector = .undef →
        (processRow nowISO row).Sector = .str "General")
    ∧ (row.Platform = .undef → row.platform = .undef →
        (processRow nowISO row).Platform = .str "Unknown")
    ∧ (row.Hour.truthy = false →
        ∃ h : ℤ, (processRow nowISO row).Hour = some (h : ℚ) ∧ 0 ≤ h ∧ h ≤ 23) := by
  refine ⟨by simp [processCSVData], ?_, ?_, ?_, ?_, ?_, ?_, ?_, ?_⟩
  · intro h1 h2; simp [processRow, h1, h2, jsOr, JSVal.truthy, jsToNumber]
  · intro h1 h2; simp [processRow, h1, h2, jsOr, JSVal.truthy, jsToNumber]
  · intro h1 h2; simp [processRow, h1, h2, jsOr, JSVal.truthy, jsToNumber]
  · intro h1 h2; simp [processRow, h1, h2, jsOr, JSVal.truthy, jsToNumber]
  · intro h1 h2; simp [processRow, h1, h2, jsOr, JSVal.truthy, jsToNumber]
  · intro h1 h2; simp [processRow, h1, h2, jsOr, JSVal.truthy]
  · intro h1 h2; simp [processRow, h1, h2, jsOr, JSVal.truthy]
  · intro hf
    refine ⟨hourOrZero (jsGetHours (jsDateOfVal row.Date)), ?_, ?_⟩
    · simp [processRow, hf]
    · have := hourOrZero_range (jsGetHours (jsDateOfVal row.Date))
        (fun h hh => jsGetHours_range _ h hh)
      omega

/-- C1 counterexample: the claim "every numeric field is non-negative and
unparseable numeric input coerces to 0" is false.  A row whose
`engagement` cell is `-5` produces record engagement `-5 < 0`, and a row
whose `Engagement` cell is the unparseable string `"abc"` produces NaN
(a non-finite value), not `0`. -/
theorem processCSVData_nonneg_counterexample :
    (processRow epochISO { engagement := .num (some (-5)) }).Engagement = some (-5)
    ∧ ((-5 : ℚ) < 0)
    ∧ (processRow epochISO { Engagement := .str "abc" }).Engagement = none :=
  ⟨by decide, by norm_num, by decide⟩

/-- C1 witness: the amended theorem applied to the all-missing row. -/
theorem processCSVData_defaults_witness :
    (processCSVData epochISO [{}]).length = 1
    ∧ (processRow epochISO {}).Engagement = some 0
    ∧ (processRow epochISO {}).Sector = .str "General"
    ∧ (processRow epochISO {}).Platform = .str "Unknown"
    ∧ ∃ h : ℤ, (processRow epochISO {}).Hour = some (h : ℚ) ∧ 0 ≤ h ∧ h ≤ 23 := by
  have H := processCSVData_totality_and_defaults epochISO [{}] {}
  exact ⟨H.1, H.2.1 rfl rfl, H.2.2.2.2.2.2.1 rfl rfl, H.2.2.2.2.2.2.2.1 rfl rfl,
    H.2.2.2.2.2.2.2.2 rfl⟩

/-- C2 (amended): for at least two records, the linear trend equals
`(lastCoerced - firstCoerced) / recordCount`, where the last sorted
point's engagement is coerced through `|| 100` — an absent, zero or
non-finite value becomes `100`, not `0` — and the first point's through
`|| 0`. -/
theorem forecast_trend_eq (data : List SocialData) (h2 : 2 ≤ data.length) :
    forecastTrend data =
      (jqOrQ (some ((forecastSorted data).getLastD dfltSD).Engagement) 100
        - jqOrQ (some ((forecastSorted data).headD dfltSD).Engagement) 0)
        / (data.length : ℚ) := by
  have hslen : (forecastSorted data).length = data.length := length_jsSortBy _ _
  have hsne : forecastSorted data ≠ [] := by
    intro hnil
    rw [hnil] at hslen
    simp at hslen
    omega
  have hmne : (forecastSorted data).map
      (fun d => ({ date := jsSplitT d.Date, actual := some d.Engagement } : ForecastPoint)) ≠ [] := by
    simpa using hsne
  unfold forecastTrend forecastLastVal forecastHistoric
  rw [getLastD_irrel _ hmne dfltFP
        ({ date := jsSplitT dfltSD.Date, actual := some dfltSD.Engagement } : ForecastPoint),
      getLastD_map, headD_map _ _ hsne dfltSD, List.length_map, hslen]

/-- C2 counterexample: with engagements 40 then 0 (valid, increasing
dates), the claim's formula `(lastActual - firstActual) / recordCount`
gives `(0 - 40) / 2 = -20`, but the code computes `(0 || 100 - 40) / 2 =
30` because a zero last value is falsy and coerces to `100`. -/
theorem forecast_trend_counterexample :
    forecastTrend [trendRecA, trendRecB] = 30 ∧ (30 : ℚ) ≠ (0 - 40) / 2 :=
  ⟨by decide, by norm_num⟩

/-- C2 witness: the amended trend equation at a concrete two-record input. -/
theorem forecast_trend_witness :
    forecastTrend [trendRecA, trendRecB] =
      (jqOrQ (some ((forecastSorted [trendRecA, trendRecB]).getLastD dfltSD).Engagement) 100
        - jqOrQ (some ((forecastSorted [trendRecA, trendRecB]).headD dfltSD).Engagement) 0)
        / (([trendRecA, trendRecB] : List SocialData).length : ℚ) :=
  forecast_trend_eq _ (by decide)

/-- C3: on two Monday-09:00 records with engagements 100 and 200 and one
Tuesday-10:00 record with engagement 50, `calculateNTS` reports best
window Monday "09:00", engagement score 150 and lift 29% (the global
baseline being `(100 + 200 + 50) / 3`). -/
theorem calculateNTS_example :
    calculateNTS [ntsMonA, ntsMonB, ntsTue] =
      ⟨"Monday", "09:00", some 150, some 29, "Tuesday @ 10:00"⟩
    ∧ jqDiv (jqSum [ntsMonA.Engagement, ntsMonB.Engagement, ntsTue.Engagement])
        (some 3) = some (350 / 3) :=
  ⟨by decide, by decide⟩

/-- C4: the forecast's shape — fewer than two records yield the empty
sequence; otherwise (for records with parseable timestamps, the
well-formedness §3 requires) the output is the historical echoes followed
by exactly 10 future points, the former carrying only `actual`, the
latter only `predicted`. -/
theorem forecast_shape (jitter : ℕ → ℚ) (data : List SocialData) :
    (data.length < 2 → generateNeuralForecast jitter data = some [])
    ∧ (2 ≤ data.length → (∀ r ∈ data, ((jsDateOfString r.Date).ms).isSome) →
        ∃ hist future, generateNeuralForecast jitter data = some (hist ++ future)
          ∧ hist.length = data.length ∧ future.length = 10
          ∧ (∀ p ∈ hist, p.actual.isSome ∧ p.predicted = none)
          ∧ (∀ p ∈ future, p.actual = none ∧ p.predicted.isSome)) := by
  constructor
  · intro h
    simp [generateNeuralForecast, h]
  · intro h2 hv
    have hlt : ¬ data.length < 2 := by omega
    have hslen : (forecastSorted data).length = data.length := length_jsSortBy _ _
    have hsne : forecastSorted data ≠ [] := by
      intro hnil; rw [hnil] at hslen; simp at hslen; omega
    have hmem : (forecastSorted data).getLastD dfltSD ∈ data :=
      mem_jsSortBy (getLastD_mem _ hsne _)
    obtain ⟨t, ht⟩ := Option.isSome_iff_exists.mp (hv _ hmem)
    refine ⟨forecastHistoric data, (List.range 10).map (forecastFuturePoint jitter data t),
      ?_, ?_, ?_, ?_, ?_⟩
    · unfold generateNeuralForecast
      rw [if_neg hlt]
      dsimp only
      rw [mapM_option_eq_map _ (forecastFuturePoint jitter data t) _ ?_]
      · rfl
      · intro k _
        simp only [forecastFutureDate, ht, Option.map_some', forecastFuturePoint]
    · simp [forecastHistoric, hslen]
    · simp
    · intro p hp
      simp only [forecastHistoric, List.mem_map] at hp
      obtain ⟨d, _, rfl⟩ := hp
      exact ⟨rfl, rfl⟩
    · intro p hp
      simp only [List.mem_map] at hp
      obtain ⟨k, _, rfl⟩ := hp
      exact ⟨rfl, rfl⟩

/-- C4 witness: two valid records produce 2 + 10 = 12 points. -/
theorem forecast_shape_witness :
    (generateNeuralForecast (fun _ => 0) [fcA, fcB]).map List.length = some 12 := by
  obtain ⟨hist, fut, heq, hl1, hl2, _, _⟩ :=
    (forecast_shape (fun _ => 0) [fcA, fcB]).2 (by decide) (by decide)
  rw [heq]
  simp [hl1, hl2]

/-- C5 (amended): for at least two well-formed records and any jitter in
`[-10, 10)`, the `i`-th predicted value is exactly
`max(0, lastVal + trend * i + jitter i)` and therefore lies within
`[max(0, B - 10), max(0, B + 10)]` for `B = lastVal + trend * i` — where
`lastVal` is the *coerced* last engagement (`|| 100`, see C2) and the
upper bound also needs the `max` clamp (for `B < -10` the predicted value
is `0`, above the claim's unclamped bound `B + 10`). -/
theorem forecast_pred_window (jitter : ℕ → ℚ) (data : List SocialData)
    (h2 : 2 ≤ data.length)
    (hv : ∀ r ∈ data, ((jsDateOfString r.Date).ms).isSome)
    (hj : ∀ i, -10 ≤ jitter i ∧ jitter i < 10) :
    ∃ future, generateNeuralForecast jitter data = some (forecastHistoric data ++ future)
      ∧ future.length = 10
      ∧ ∀ k, k < 10 →
          (future.getD k dfltFP).predicted =
            some (some (max 0 (forecastLastVal data
              + forecastTrend data * ((k + 1 : ℕ) : ℚ) + jitter (k + 1))))
          ∧ max 0 (forecastLastVal data + forecastTrend data * ((k + 1 : ℕ) : ℚ) - 10)
              ≤ max 0 (forecastLastVal data + forecastTrend data * ((k + 1 : ℕ) : ℚ) + jitter (k + 1))
          ∧ max 0 (forecastLastVal data + forecastTrend data * ((k + 1 : ℕ) : ℚ) + jitter (k + 1))
              ≤ max 0 (forecastLastVal data + forecastTrend data * ((k + 1 : ℕ) : ℚ) + 10) := by
  have hlt : ¬ data.length < 2 := by omega
  have hslen : (forecastSorted data).length = data.length := length_jsSortBy _ _
  have hsne : forecastSorted data ≠ [] := by
    intro hnil; rw [hnil] at hslen; simp at hslen; omega
  have hmem : (forecastSorted data).getLastD dfltSD ∈ data :=
    mem_jsSortBy (getLastD_mem _ hsne _)
  obtain ⟨t, ht⟩ := Option.isSome_iff_exists.mp (hv _ hmem)
  refine ⟨(List.range 10).map (forecastFuturePoint jitter data t), ?_, by simp, ?_⟩
  · unfold generateNeuralForecast
    rw [if_neg hlt]
    dsimp only
    rw [mapM_option_eq_map _ (forecastFuturePoint jitter data t) _ ?_]
    · rfl
    · intro k _
      simp only [forecastFutureDate, ht, Option.map_some', forecastFuturePoint]
  · intro k hk
    rw [getD_map_range 10 k hk]
    refine ⟨rfl, ?_, ?_⟩
    · exact max_le_max (le_refl 0) (by linarith [(hj (k + 1)).1])
    · exact max_le_max (le_refl 0) (by linarith [(hj (k + 1)).2])

/-- C5 counterexample: two records with engagement 0 on consecutive days
and jitter 0.  The claim's quantities are `lastActual = 0` and (by §4.3's
formula) `trend = (0 - 0) / 2 = 0`, so the claimed interval for `i = 1`
is `[max(0, -10), 0 + 10] = [0, 10]`; but the code's first predicted
value is `max(0, (0 || 100) + 50 · 1 + 0) = 150`, outside it. -/
theorem forecast_bound_counterexample :
    (generateNeuralForecast (fun _ => 0) [zEngA, zEngB]).map (fun l => l.getD 2 dfltFP) =
      some ⟨"2024-01-03", none, some (some 150)⟩
    ∧ ¬ ((150 : ℚ) ≤ 0 + 0 * 1 + 10) :=
  ⟨by decide, by norm_num⟩

/-- C5 witness: the amended window theorem applied at a concrete input
with jitter identically 0. -/
theorem forecast_pred_window_witness :
    (generateNeuralForecast (fun _ => 0) [zEngA, zEngB]).isSome = true := by
  obtain ⟨fut, heq, _, _⟩ := forecast_pred_window (fun _ => 0) [zEngA, zEngB]
    (by decide) (by decide) (fun i => ⟨by norm_num, by norm_num⟩)
  rw [heq]
  rfl

/-- C6 (amended): a *truthy* explicit hour field (a non-zero, finite
number or a non-empty string) is used via numeric coercion; a falsy one —
including the explicit value `0`, contrary to the claim — falls back to
the parsed timestamp's hour, which is `0` when parsing fails. -/
theorem hour_resolution (nowISO : String) (row : RawRow) :
    (row.Hour.truthy = true → (processRow nowISO row).Hour = jsToNumber row.Hour)
    ∧ (row.Hour.truthy = false →
        (processRow nowISO row).Hour =
          some ((hourOrZero (jsGetHours (jsDateOfVal row.Date)) : ℤ) : ℚ))
    ∧ (row.Hour.truthy = false → (jsDateOfVal row.Date).ms = none →
        (processRow nowISO row).Hour = some 0) := by
  refine ⟨?_, ?_, ?_⟩
  · intro h; simp [processRow, h]
  · intro h; simp [processRow, h]
  · intro h hd; simp [processRow, h, jsGetHours, hd, hourOrZero]

/-- C6 counterexample: a row with explicit hour `0` and a 09:00 timestamp.
The claim says the explicit field wins ("including the value 0"), i.e.
the hour should be `0`; the code's `row.Hour ? ... : ...` treats `0` as
falsy and derives `9` from the timestamp instead. -/
theorem hour_zero_counterexample :
    (processRow epochISO
      { Hour := .num (some 0), Date := .str "2024-01-01T09:00:00" }).Hour = some 9
    ∧ jsToNumber (JSVal.num (some 0)) = some 0
    ∧ (9 : ℚ) ≠ 0 :=
  ⟨by decide, rfl, by norm_num⟩

/-- C6 witness: the resolution theorem at three concrete rows (truthy
hour, absent hour with valid timestamp, absent hour with bad timestamp). -/
theorem hour_resolution_witness :
    (processRow epochISO { Hour := .num (some 5) }).Hour = jsToNumber (JSVal.num (some 5))
    ∧ (processRow epochISO { Date := .str "2024-01-01T09:00:00" }).Hour =
        some ((hourOrZero (jsGetHours (jsDateOfVal (JSVal.str "2024-01-01T09:00:00"))) : ℤ) : ℚ)
    ∧ (processRow epochISO { Date := .str "nope" }).Hour = some 0 :=
  ⟨(hour_resolution epochISO { Hour := .num (some 5) }).1 (by decide),
   (hour_resolution epochISO { Date := .str "2024-01-01T09:00:00" }).2.1 rfl,
   (hour_resolution epochISO { Date := .str "nope" }).2.2 rfl (by decide)⟩

/-- C7: `calculateNTS` of the empty sequence never fails and returns the
sentinel result: `"N/A"` day, hour and secondary window, zero score and
zero lift. -/
theorem calculateNTS_empty :
    calculateNTS [] = ⟨"N/A", "N/A", some 0, some 0, "N/A"⟩ := by decide

/-- C8: on empty input `generateRichSummary` returns the fixed sentinel
string for every `nts` argument — the result does not depend on it. -/
theorem summary_empty_sentinel (nts : NTSResults) :
    generateRichSummary [] nts = "Fleet data unavailable." := rfl

/-- C8 witness: the sentinel at a concrete, non-trivial `nts`. -/
theorem summary_empty_sentinel_witness :
    generateRichSummary [] ⟨"Monday", "09:00", some 150, some 29, "X"⟩ =
      "Fleet data unavailable." :=
  summary_empty_sentinel ⟨"Monday", "09:00", some 150, some 29, "X"⟩

/-- C9 (amended): splitting `"[EXECUTIVE_SUMMARY]Foo[KEY_INSIGHTS]Bar"`
yields the two trimmed sections, and a text with no recognized bracket
marker becomes a single section — under the key `"EXECUTIVE_SUMMARY"`
(the code's fallback on line 268), not a "general" key as claimed. -/
theorem report_sections_amended :
    splitReportSections "[EXECUTIVE_SUMMARY]Foo[KEY_INSIGHTS]Bar" =
      [("EXECUTIVE_SUMMARY", "Foo"), ("KEY_INSIGHTS", "Bar")]
    ∧ ∀ s : String, hasMarker s.data = false →
        splitReportSections s = [("EXECUTIVE_SUMMARY", s)] :=
  ⟨by decide, report_sections_general⟩

/-- C9 counterexample: the marker-free text `"Alpha"` is stored under
`"EXECUTIVE_SUMMARY"`, which is not the claimed default key
`"general"` (nor `"GENERAL"`). -/
theorem report_sections_counterexample :
    splitReportSections "Alpha" = [("EXECUTIVE_SUMMARY", "Alpha")]
    ∧ ("EXECUTIVE_SUMMARY" : String) ≠ "general"
    ∧ ("EXECUTIVE_SUMMARY" : String) ≠ "GENERAL" :=
  ⟨by decide, by decide, by decide⟩

/-- C9 witness: the no-marker branch of the amended theorem at a concrete
string. -/
theorem report_sections_witness :
    splitReportSections "hello" = [("EXECUTIVE_SUMMARY", "hello")] :=
  report_sections_amended.2 "hello" (by decide)

/-- C10: every core function leaves its input sequence unchanged — in the
state-threaded embedding each `Run` variant returns the input array
exactly as it was, and its result is the pure function of the input (the
forecaster's only in-place operation, the sort, acts on the spread copy
built on line 65). -/
theorem frame_all (data : List SocialData) (nts : NTSResults) (jitter : ℕ → ℚ) :
    (calculateNTSRun data).2 = data
    ∧ (generateNeuralForecastRun jitter data).2 = data
    ∧ (generateRichSummaryRun data nts).2 = data
    ∧ (calculateNTSRun data).1 = calculateNTS data
    ∧ (generateNeuralForecastRun jitter data).1 = generateNeuralForecast jitter data
    ∧ (generateRichSummaryRun data nts).1 = generateRichSummary data nts :=
  ⟨rfl, rfl, rfl, rfl, rfl, rfl⟩

/-- C10 witness: the frame theorem at a concrete snapshot. -/
theorem frame_all_witness :
    (calculateNTSRun [ntsMonA]).2 = [ntsMonA]
    ∧ (generateNeuralForecastRun (fun _ => 0) [ntsMonA]).2 = [ntsMonA]
    ∧ (generateRichSummaryRun [ntsMonA] ⟨"N/A", "N/A", some 0, some 0, "N/A"⟩).2 = [ntsMonA] := by
  have H := frame_all [ntsMonA] ⟨"N/A", "N/A", some 0, some 0, "N/A"⟩ (fun _ => 0)
  exact ⟨H.1, H.2.1, H.2.2.1⟩

end ClaimProofs
